import Mathlib

/-!
Shallow embedding of the orbital-transfer trajectory-optimization script
(`hws/10.2_orbital_transfer.py`): the rocket/planet/universe data model, the
gravitational-acceleration and dynamics-residual functions, the constraint
and objective assembly loops, and the solve/read-back step.  Machine floats
are modelled as real numbers; numpy 2-arrays as pairs and 4-arrays as pairs
of pairs (matching the `state[:2]` / `state[2:]` slicing); Python code paths
that dereference a failed planet-name lookup are Option-valued.  Plot-only
data (colors, planet radii) and the plotting helpers are omitted: no claim
depends on them.
-/

namespace OrbitalTransfer

/-- A 2-vector (a numpy array of two floats). -/
abbrev Vec2 : Type := ℝ × ℝ

/-- A rocket state: `state[:2]` is the position, `state[2:]` the velocity;
four real components in total. -/
abbrev State4 : Type := Vec2 × Vec2

/-- numpy dot product of two 2-vectors. -/
def dot (a b : Vec2) : ℝ := a.1 * b.1 + a.2 * b.2

/-- The mass entry of `unit_converter`: kilograms to tons, `m / 1e3 ** power`. -/
noncomputable def unit_mass (m : ℝ) (power : ℤ) : ℝ := m / (1e3 : ℝ) ^ power

/-- The length entry of `unit_converter`: `l / 1e11 ** power`. -/
noncomputable def unit_length (l : ℝ) (power : ℤ) : ℝ := l / (1e11 : ℝ) ^ power

/-- The time entry of `unit_converter`: `t / (60 * 60 * 24 * 30 * 12) ** power`. -/
noncomputable def unit_time (t : ℝ) (power : ℤ) : ℝ :=
  t / ((60 * 60 * 24 * 30 * 12 : ℝ)) ^ power

/-- The `Rocket` class data: mass, thrust limit, velocity limit (already in
scaled units). -/
structure Rocket where
  mass : ℝ
  thrust_limit : ℝ
  velocity_limit : ℝ

/-- `Rocket.__init__`: stores the unit-scaled mass; the thrust limit is
converted one quantity at a time along `thrust_units`
(mass¹ · length¹ · time⁻²) and the velocity limit along `velocity_units`
(length¹ · time⁻¹).  The constructor performs no input validation. -/
noncomputable def Rocket.make (mass thrust_limit velocity_limit : ℝ) : Rocket :=
  { mass := unit_mass mass 1
    thrust_limit := unit_time (unit_length (unit_mass thrust_limit 1) 1) (-2)
    velocity_limit := unit_time (unit_length velocity_limit 1) (-1) }

/-- The `Planet` class data: name, mass, position, orbit radius (scaled). -/
structure Planet where
  name : String
  mass : ℝ
  position : Vec2
  orbit : ℝ

/-- The `Universe` class: the rocket, the planet list and the scaled
gravitational constant `G`. -/
structure Universe where
  rocket : Rocket
  planets : List Planet
  G : ℝ

/-- `Universe.__init__`: stores the rocket and planets and computes `G` by
converting `6.67e-11` along `G_units` (length³ · mass⁻¹ · time⁻²). -/
noncomputable def Universe.make (rocket : Rocket) (planets : List Planet) : Universe :=
  { rocket := rocket, planets := planets
    G := unit_time (unit_mass (unit_length (6.67e-11 : ℝ) 3) (-1)) (-2) }

/-- `Universe.get_planet`: the first planet whose name matches, `none`
otherwise (the Python prints a not-found message and returns `None`). -/
def Universe.get_planet (U : Universe) (name : String) : Option Planet :=
  U.planets.find? (fun pl => pl.name == name)

/-- `Universe.position_wrt_planet`: rocket position relative to the named
planet; `none` when the lookup misses (the Python dereferences `None` and
raises). -/
def Universe.position_wrt_planet (U : Universe) (state : State4) (name : String) :
    Option Vec2 :=
  (U.get_planet name).map (fun pl => state.1 - pl.position)

/-- The divisor `d ** 3` of `acceleration_from_planet`, where
`d = p.dot(p) ** .5` is the distance from the planet. -/
noncomputable def grav_divisor (p : Vec2) : ℝ := Real.sqrt (dot p p) ^ 3

/-- `Universe.acceleration_from_planet`: the 2-vector
`- G * planet.mass / d ** 3 * p`; `none` when the name lookup misses. -/
noncomputable def Universe.acceleration_from_planet (U : Universe) (state : State4)
    (name : String) : Option Vec2 :=
  match U.position_wrt_planet state name, U.get_planet name with
  | some p, some planet => some ((-U.G * planet.mass / grav_divisor p) • p)
  | _, _ => none

/-- The accumulation loop of `rocket_continuous_dynamics`:
`for planet in self.planets: a = a + self.acceleration_from_planet(state, planet.name)`. -/
noncomputable def gravity_loop (U : Universe) (state : State4) : Vec2 → List Planet → Option Vec2
  | a, [] => some a
  | a, pl :: rest =>
    match U.acceleration_from_planet state pl.name with
    | some ap => gravity_loop U state (a + ap) rest
    | none => none

/-- `Universe.rocket_continuous_dynamics`: thrust acceleration
`thrust / rocket.mass` plus the accumulated planet accelerations,
concatenated after the velocity components. -/
noncomputable def Universe.rocket_continuous_dynamics (U : Universe) (state : State4)
    (thrust : Vec2) : Option State4 :=
  match gravity_loop U state (thrust.1 / U.rocket.mass, thrust.2 / U.rocket.mass) U.planets with
  | some a => some (state.2, a)
  | none => none

/-- `Universe.rocket_discrete_dynamics` (implicit Euler): the 4-vector of
residuals `state_next - state - time_step * f(state_next, thrust)`. -/
noncomputable def Universe.rocket_discrete_dynamics (U : Universe) (state state_next : State4)
    (thrust : Vec2) (time_step : ℝ) : Option State4 :=
  match U.rocket_continuous_dynamics state_next thrust with
  | some state_dot => some (state_next - state - time_step • state_dot)
  | none => none

/-- `Universe.constraint_state_to_orbit`: the three orbit-membership
residuals (radial distance, radial velocity, radial acceleration).  Note the
acceleration residual calls `acceleration_from_planet` for the single target
planet only. -/
noncomputable def Universe.constraint_state_to_orbit (U : Universe) (state : State4)
    (planet_name : String) : Option (ℝ × ℝ × ℝ) :=
  match U.get_planet planet_name, U.acceleration_from_planet state planet_name with
  | some planet, some a =>
    some (dot (state.1 - planet.position) (state.1 - planet.position) - planet.orbit ^ 2,
      dot (state.1 - planet.position) state.2,
      dot (state.1 - planet.position) a + dot state.2 state.2)
  | _, _ => none

/-- The single-body pull `-G * mass * (q - pos) / |q - pos|^3`, appearing
both in the resolved code acceleration and in the spec's Gravity Field
contract. -/
noncomputable def planet_accel (U : Universe) (q : Vec2) (pl : Planet) : Vec2 :=
  (-U.G * pl.mass / grav_divisor (q - pl.position)) • (q - pl.position)

/-- The Gravity Field exactly as the spec words it: net gravitational
acceleration at a point, summed over all registered bodies. -/
noncomputable def spec_gravity_field (U : Universe) (q : Vec2) : Vec2 :=
  (U.planets.map (fun pl => planet_accel U q pl)).sum

/-- The Vehicle Dynamics as the spec words it: velocity in the position
slot, `thrust/vehicle_mass + gravity_field(position)` in the velocity slot. -/
noncomputable def spec_dynamics (U : Universe) (s : State4) (u : Vec2) : State4 :=
  (s.2, (u.1 / U.rocket.mass, u.2 / U.rocket.mass) + spec_gravity_field U s.1)

/-- An assignment of numeric values to the decision variables: the `state`
rows (time-indexed 4-vectors) and `thrust` rows (time-indexed 2-vectors). -/
abbrev Assignment : Type := (ℕ → State4) × (ℕ → Vec2)

/-- One scalar constraint of the mathematical program, as the predicate the
solver must satisfy. -/
abbrev Constraint : Type := Assignment → Prop

/-- The thrust-limit loop: `for t in range(time_steps)`, add
`dot(thrust[t], thrust[t]) <= rocket.thrust_limit ** 2`. -/
def thrust_constraints (U : Universe) (time_steps : ℕ) : List Constraint :=
  (List.range time_steps).map (fun t => fun asg =>
    dot (asg.2 t) (asg.2 t) ≤ U.rocket.thrust_limit ^ 2)

/-- The velocity-limit loop: `for t in range(time_steps)`, add
`norm(state[t][2:]) <= rocket.velocity_limit`.  Note the loop bound: it
ranges over `time_steps` values of `t`, not `time_steps + 1`. -/
def velocity_constraints (U : Universe) (time_steps : ℕ) : List Constraint :=
  (List.range time_steps).map (fun t => fun asg =>
    Real.sqrt (dot (asg.1 t).2 (asg.1 t).2) ≤ U.rocket.velocity_limit)

/-- The asteroid keep-out loop: `for t in range(time_steps + 1)`, for each
asteroid, add `norm(position_wrt_planet(state[t], name)) >= orbit`.  A
failed name lookup would crash the assembly; it is modelled as an
unsatisfiable constraint. -/
def asteroid_constraints (U : Universe) (asteroids : List Planet) (time_steps : ℕ) :
    List Constraint :=
  (List.range (time_steps + 1)).flatMap (fun t => asteroids.map (fun ast => fun asg =>
    ∃ p, U.position_wrt_planet (asg.1 t) ast.name = some p ∧
      ast.orbit ≤ Real.sqrt (dot p p)))

/-- All inequality constraints added by the three `modify here` loops. -/
def path_inequality_constraints (U : Universe) (asteroids : List Planet)
    (time_steps : ℕ) : List Constraint :=
  thrust_constraints U time_steps ++ velocity_constraints U time_steps ++
    asteroid_constraints U asteroids time_steps

/-- The fuel-cost loop:
`cost = 0; for t in range(time_steps): cost += time_interval * dot(thrust[t], thrust[t])`. -/
noncomputable def fuel_cost_objective (time_interval : ℝ) (time_steps : ℕ)
    (thrust : ℕ → Vec2) : ℝ :=
  (List.range time_steps).foldl (fun cost t => cost + time_interval * dot (thrust t) (thrust t)) 0

/-- `fuel_consumption(thrust, time_interval)`:
`time_interval * sum(t.dot(t) for t in thrust)`. -/
noncomputable def fuel_consumption (thrust : List Vec2) (time_interval : ℝ) : ℝ :=
  time_interval * (thrust.map (fun t => dot t t)).sum

/-- What the external solver call returns: the `is_success` flag and the
values `GetSolution` reads back for the state and thrust variable blocks. -/
structure SolverResult where
  is_success : Bool
  state_values : ℕ → State4
  thrust_values : ℕ → Vec2

/-- A reported solution: the optimal sequences and the realized fuel cost. -/
structure Solution where
  state_opt : ℕ → State4
  thrust_opt : ℕ → Vec2
  fuel : ℝ

/-- The post-solve step of the script: `assert result.is_success()` (an
error on failure, after which nothing is read back), then `GetSolution` on
both variable blocks and the `fuel_consumption` report. -/
noncomputable def retrieve_solution (result : SolverResult) (time_interval : ℝ)
    (time_steps : ℕ) : Except String Solution :=
  if result.is_success then
    Except.ok
      { state_opt := result.state_values
        thrust_opt := result.thrust_values
        fuel := fuel_consumption ((List.range time_steps).map result.thrust_values)
          time_interval }
  else Except.error ("result.is_success() returned False")

/-- A test planet at the origin with unit mass and unit orbit radius. -/
def probe : Planet := { name := "Probe", mass := 1, position := (0, 0), orbit := 1 }

/-- A second test body on the x-axis. -/
def bodyB : Planet := { name := "BodyB", mass := 1, position := (3, 0), orbit := 1 }

/-- A rocket with unit mass and unit limits. -/
def unitRocket : Rocket := { mass := 1, thrust_limit := 1, velocity_limit := 1 }

/-- A universe holding only `probe`, with `G = 1`. -/
def oneBodyUniverse : Universe := { rocket := unitRocket, planets := [probe], G := 1 }

/-- A universe holding `probe` and `bodyB`, with `G = 1`. -/
def twoBodyUniverse : Universe :=
  { rocket := unitRocket, planets := [probe, bodyB], G := 1 }

/-- A universe with no planets, with `G = 1`. -/
def emptyUniverse : Universe := { rocket := unitRocket, planets := [], G := 1 }

/-- An assignment whose states are all at rest except the final one
(index 100), which moves at speed 5; all thrusts are zero. -/
noncomputable def finalFastAssign : Assignment :=
  (fun t => if t = 100 then ((0, 0), (5, 0)) else ((0, 0), (0, 0)), fun _ => (0, 0))

/-- A solver outcome with the failure flag set. -/
def failedResult : SolverResult :=
  { is_success := false
    state_values := fun _ => ((0, 0), (0, 0))
    thrust_values := fun _ => (0, 0) }

/-- A successful solver outcome with constant unit thrust. -/
def okResult : SolverResult :=
  { is_success := true
    state_values := fun _ => ((0, 0), (0, 0))
    thrust_values := fun _ => (1, 0) }

/-- The solution record `retrieve_solution` builds out of `okResult` with
time interval 2 and one time step. -/
noncomputable def okSolution : Solution :=
  { state_opt := okResult.state_values
    thrust_opt := okResult.thrust_values
    fuel := fuel_consumption ((List.range 1).map okResult.thrust_values) 2 }

/-! ### Helper lemmas -/

theorem dot_self_nonneg (p : Vec2) : 0 ≤ dot p p := by
  unfold dot
  exact add_nonneg (mul_self_nonneg p.1) (mul_self_nonneg p.2)

theorem sq_sqrt_dot (p : Vec2) : Real.sqrt (dot p p) ^ 2 = dot p p :=
  Real.sq_sqrt (dot_self_nonneg p)

theorem dot_self_eq_zero_iff (p : Vec2) : dot p p = 0 ↔ p = 0 := by
  unfold dot
  constructor
  · intro h
    have h1 : p.1 * p.1 = 0 := by nlinarith [mul_self_nonneg p.1, mul_self_nonneg p.2]
    have h2 : p.2 * p.2 = 0 := by nlinarith [mul_self_nonneg p.1, mul_self_nonneg p.2]
    rw [Prod.ext_iff]
    exact ⟨by simpa using mul_self_eq_zero.mp h1, by simpa using mul_self_eq_zero.mp h2⟩
  · intro h
    rw [h]
    simp

theorem grav_divisor_eq_zero_iff (p : Vec2) : grav_divisor p = 0 ↔ p = 0 := by
  unfold grav_divisor
  rw [pow_eq_zero_iff (by norm_num : (3 : ℕ) ≠ 0),
    Real.sqrt_eq_zero (dot_self_nonneg p), dot_self_eq_zero_iff]

theorem dot_smul_right (c : ℝ) (a b : Vec2) : dot a (c • b) = c * dot a b := by
  unfold dot
  simp [Prod.smul_fst, Prod.smul_snd, smul_eq_mul]
  ring

theorem acceleration_from_planet_resolved (U : Universe) (s : State4) (name : String)
    (pl : Planet) (h : U.get_planet name = some pl) :
    U.acceleration_from_planet s name = some (planet_accel U s.1 pl) := by
  unfold Universe.acceleration_from_planet Universe.position_wrt_planet planet_accel
  rw [h]
  rfl

theorem gravity_loop_resolved (U : Universe) (s : State4) (l : List Planet)
    (h : ∀ pl ∈ l, U.get_planet pl.name = some pl) (a : Vec2) :
    gravity_loop U s a l = some (a + (l.map (fun pl => planet_accel U s.1 pl)).sum) := by
  induction l generalizing a with
  | nil => simp [gravity_loop]
  | cons pl rest ih =>
    rw [gravity_loop]
    rw [acceleration_from_planet_resolved U s pl.name pl (h pl (List.mem_cons_self pl rest))]
    show gravity_loop U s (a + planet_accel U s.1 pl) rest = _
    rw [ih (fun q hq => h q (List.mem_cons_of_mem pl hq))]
    simp [add_assoc]

theorem rocket_continuous_dynamics_resolved (U : Universe) (s : State4) (u : Vec2)
    (h : ∀ pl ∈ U.planets, U.get_planet pl.name = some pl) :
    U.rocket_continuous_dynamics s u = some (spec_dynamics U s u) := by
  unfold Universe.rocket_continuous_dynamics spec_dynamics spec_gravity_field
  rw [gravity_loop_resolved U s U.planets h]

theorem velocity_constraints_length (U : Universe) (ts : ℕ) :
    (velocity_constraints U ts).length = ts := by
  simp [velocity_constraints]

theorem velocity_constraints_sat_iff (U : Universe) (ts : ℕ) (asg : Assignment) :
    (∀ c ∈ velocity_constraints U ts, c asg) ↔
      ∀ t < ts, Real.sqrt (dot (asg.1 t).2 (asg.1 t).2) ≤ U.rocket.velocity_limit := by
  unfold velocity_constraints
  constructor
  · intro h t ht
    exact h _ (List.mem_map_of_mem _ (List.mem_range.mpr ht))
  · intro h c hc
    obtain ⟨t, ht, rfl⟩ := List.mem_map.mp hc
    exact h t (List.mem_range.mp ht)

theorem thrust_constraints_sat_iff (U : Universe) (ts : ℕ) (asg : Assignment) :
    (∀ c ∈ thrust_constraints U ts, c asg) ↔
      ∀ t < ts, dot (asg.2 t) (asg.2 t) ≤ U.rocket.thrust_limit ^ 2 := by
  unfold thrust_constraints
  constructor
  · intro h t ht
    exact h _ (List.mem_map_of_mem _ (List.mem_range.mpr ht))
  · intro h c hc
    obtain ⟨t, ht, rfl⟩ := List.mem_map.mp hc
    exact h t (List.mem_range.mp ht)

theorem asteroid_constraints_length (U : Universe) (asts : List Planet) (ts : ℕ) :
    (asteroid_constraints U asts ts).length = (ts + 1) * asts.length := by
  unfold asteroid_constraints
  rw [List.length_flatMap]
  have hm : List.map (List.length ∘ fun t => asts.map (fun ast => fun asg : Assignment =>
        ∃ p, U.position_wrt_planet (asg.1 t) ast.name = some p ∧
          ast.orbit ≤ Real.sqrt (dot p p))) (List.range (ts + 1))
      = List.map (fun _ => asts.length) (List.range (ts + 1)) :=
    List.map_congr_left (fun t _ => by simp [Function.comp])
  rw [hm, List.map_const', List.sum_replicate, List.length_range, smul_eq_mul]

theorem asteroid_constraints_sat_iff (U : Universe) (asts : List Planet) (ts : ℕ)
    (hfind : ∀ a ∈ asts, U.get_planet a.name = some a) (asg : Assignment) :
    (∀ c ∈ asteroid_constraints U asts ts, c asg) ↔
      ∀ t ≤ ts, ∀ a ∈ asts,
        a.orbit ≤ Real.sqrt (dot ((asg.1 t).1 - a.position) ((asg.1 t).1 - a.position)) := by
  unfold asteroid_constraints
  constructor
  · intro h t ht a ha
    have hc := h _ (List.mem_flatMap.mpr ⟨t, List.mem_range.mpr (Nat.lt_succ_of_le ht),
      List.mem_map_of_mem _ ha⟩)
    obtain ⟨p, hp, hle⟩ := hc
    have hpe : p = (asg.1 t).1 - a.position := by
      rw [Universe.position_wrt_planet, hfind a ha, Option.map_some'] at hp
      exact (Option.some.inj hp).symm
    rwa [hpe] at hle
  · intro h c hc
    obtain ⟨t, htr, hc2⟩ := List.mem_flatMap.mp hc
    obtain ⟨a, ha, rfl⟩ := List.mem_map.mp hc2
    refine ⟨(asg.1 t).1 - a.position, ?_, ?_⟩
    · rw [Universe.position_wrt_planet, hfind a ha, Option.map_some']
    · exact h t (Nat.lt_succ_iff.mp (List.mem_range.mp htr)) a ha

theorem fuel_cost_objective_eq_sum (h : ℝ) (ts : ℕ) (u : ℕ → Vec2) :
    fuel_cost_objective h ts u = h * ((List.range ts).map (fun t => dot (u t) (u t))).sum := by
  induction ts with
  | zero => simp [fuel_cost_objective]
  | succ n ih =>
    have hstep : fuel_cost_objective h (n + 1) u
        = fuel_cost_objective h n u + h * dot (u n) (u n) := by
      unfold fuel_cost_objective
      rw [List.range_succ, List.foldl_append]
      simp
    rw [hstep, ih, List.range_succ, List.map_append, List.sum_append]
    simp
    ring

theorem fuel_consumption_eq_sum (h : ℝ) (ts : ℕ) (u : ℕ → Vec2) :
    fuel_consumption ((List.range ts).map u) h
      = h * ((List.range ts).map (fun t => dot (u t) (u t))).sum := by
  unfold fuel_consumption
  rw [List.map_map]
  rfl

theorem sqrt_four : Real.sqrt 4 = 2 := by
  rw [show (4 : ℝ) = 2 ^ 2 by norm_num, Real.sqrt_sq (by norm_num : (0 : ℝ) ≤ 2)]

/-! ### Claim theorems -/

/-- **C1.** For every state, next state, thrust vector and time step (over
any universe whose planet names resolve to themselves, as in the script),
the discrete-dynamics residual is the 4-vector
`state_next - state - time_step * dynamics(state_next, thrust)`, where the
dynamics place the velocity components of `state_next` in the position slot
and `thrust / vehicle_mass` plus the net gravitational acceleration at the
position of `state_next` (the spec's Gravity Field, summed over all
registered bodies) in the velocity slot. -/
theorem C1_discrete_dynamics_residual (U : Universe) (s s' : State4) (u : Vec2) (h : ℝ)
    (hres : ∀ pl ∈ U.planets, U.get_planet pl.name = some pl) :
    U.rocket_discrete_dynamics s s' u h = some (s' - s - h • spec_dynamics U s' u) := by
  unfold Universe.rocket_discrete_dynamics
  rw [rocket_continuous_dynamics_resolved U s' u hres]

/-- Witness for C1: concrete evaluation in the planet-free universe. -/
theorem C1_witness :
    emptyUniverse.rocket_discrete_dynamics (((0, 0), (0, 0)) : State4)
        (((1, 2), (3, 4)) : State4) ((2, 0) : Vec2) 1
      = some (((-2, -2), (1, 4)) : State4) := by
  rw [C1_discrete_dynamics_residual emptyUniverse ((0, 0), (0, 0)) ((1, 2), (3, 4)) (2, 0) 1
    (by intro pl hpl; simp [emptyUniverse] at hpl)]
  simp [spec_dynamics, spec_gravity_field, emptyUniverse, unitRocket, Prod.ext_iff]
  norm_num

/-- **C2 counterexample.** In a two-body universe, the third component of
the orbit-membership residual computed by the code differs from the claimed
value `(p - body.position) · a + v · v` with `a` the net gravitational
acceleration summed over all registered bodies: the code uses the target
body's pull only. -/
theorem C2_counterexample :
    (twoBodyUniverse.constraint_state_to_orbit (((1, 0), (0, 0)) : State4) "Probe").map
        (fun r => r.2.2) = some (-1) ∧
      dot (((1, 0) : Vec2) - probe.position) (spec_gravity_field twoBodyUniverse (1, 0))
          + dot ((0, 0) : Vec2) ((0, 0) : Vec2) = -(3 / 4) ∧
      (-1 : ℝ) ≠ -(3 / 4) := by
  refine ⟨?_, ?_, by norm_num⟩
  · have hget : twoBodyUniverse.get_planet "Probe" = some probe := rfl
    unfold Universe.constraint_state_to_orbit
    rw [hget, acceleration_from_planet_resolved twoBodyUniverse ((1, 0), (0, 0)) "Probe"
      probe hget]
    simp [planet_accel, grav_divisor, probe, twoBodyUniverse, dot, Prod.mk_sub_mk,
      Prod.smul_mk, smul_eq_mul]
  · unfold spec_gravity_field
    simp [twoBodyUniverse, planet_accel, grav_divisor, probe, bodyB, dot, Prod.mk_sub_mk,
      Prod.smul_mk, smul_eq_mul, Prod.mk_add_mk]
    norm_num [Real.sqrt_one, sqrt_four]

/-- **C2 (amended).** For every state and target body (resolved by name),
the third component of the orbit-membership residual equals
`(p - body.position) · a + v · v` where `a` is the gravitational
acceleration due to the target body alone, not the net field. -/
theorem C2_orbit_acceleration_residual (U : Universe) (s : State4) (name : String)
    (pl : Planet) (hget : U.get_planet name = some pl) :
    (U.constraint_state_to_orbit s name).map (fun r => r.2.2)
      = some (dot (s.1 - pl.position) (planet_accel U s.1 pl) + dot s.2 s.2) := by
  unfold Universe.constraint_state_to_orbit
  rw [hget, acceleration_from_planet_resolved U s name pl hget]
  rfl

/-- Witness for C2 (amended): concrete evaluation in the one-body universe. -/
theorem C2_witness :
    (oneBodyUniverse.constraint_state_to_orbit (((1, 0), (0, 1)) : State4) "Probe").map
        (fun r => r.2.2) = some 0 := by
  rw [C2_orbit_acceleration_residual oneBodyUniverse ((1, 0), (0, 1)) "Probe" probe rfl]
  simp [planet_accel, grav_divisor, probe, oneBodyUniverse, dot, Prod.ext_iff]

/-- **C3 counterexample.** With 100 time steps (the script's value), the
velocity loop adds only 100 constraints, and an assignment can satisfy every
assembled inequality constraint while the final state (index 100) exceeds
the speed limit: no constraint bounds the final state's velocity. -/
theorem C3_counterexample :
    (velocity_constraints emptyUniverse 100).length = 100 ∧
      (∀ c ∈ path_inequality_constraints emptyUniverse [] 100, c finalFastAssign) ∧
      ¬ Real.sqrt (dot (finalFastAssign.1 100).2 (finalFastAssign.1 100).2)
          ≤ emptyUniverse.rocket.velocity_limit := by
  refine ⟨velocity_constraints_length _ _, ?_, ?_⟩
  · intro c hc
    unfold path_inequality_constraints at hc
    rcases List.mem_append.mp hc with hc1 | hast
    · rcases List.mem_append.mp hc1 with ht | hv
      · refine (thrust_constraints_sat_iff emptyUniverse 100 finalFastAssign).mpr ?_ c ht
        intro t ht'
        simp [finalFastAssign, dot, emptyUniverse, unitRocket]
      · refine (velocity_constraints_sat_iff emptyUniverse 100 finalFastAssign).mpr ?_ c hv
        intro t ht'
        have hne : t ≠ 100 := by omega
        simp [finalFastAssign, hne, dot, emptyUniverse, unitRocket, Real.sqrt_zero]
    · simp [asteroid_constraints] at hast
  · intro hle
    have h5 : Real.sqrt (dot (finalFastAssign.1 100).2 (finalFastAssign.1 100).2) = 5 := by
      have hproj : (finalFastAssign.1 100).2 = ((5 : ℝ), (0 : ℝ)) := by
        simp [finalFastAssign]
      rw [hproj, show dot ((5 : ℝ), (0 : ℝ)) (5, 0) = 5 ^ 2 by norm_num [dot],
        Real.sqrt_sq (by norm_num : (0 : ℝ) ≤ 5)]
    rw [h5, show emptyUniverse.rocket.velocity_limit = 1 from rfl] at hle
    norm_num at hle

/-- **C3 (amended).** The velocity loop adds exactly `time_steps`
inequality constraints, one per state index `t < time_steps`, each bounding
that state's velocity magnitude by the vehicle's speed limit; the final
state (index `time_steps`) carries no velocity constraint. -/
theorem C3_velocity_constraints (U : Universe) (ts : ℕ) (asg : Assignment) :
    (velocity_constraints U ts).length = ts ∧
      ((∀ c ∈ velocity_constraints U ts, c asg) ↔
        ∀ t < ts, Real.sqrt (dot (asg.1 t).2 (asg.1 t).2) ≤ U.rocket.velocity_limit) :=
  ⟨velocity_constraints_length U ts, velocity_constraints_sat_iff U ts asg⟩

/-- **C4.** For any body and any state whose position lies exactly on the
body's circular orbit of radius `r`, whose radial velocity is zero and whose
speed is `sqrt(G * mass / r)`, the orbit-membership residual is the zero
vector. -/
theorem C4_circular_orbit_zero_residual (U : Universe) (name : String) (pl : Planet)
    (s : State4) (r : ℝ)
    (hget : U.get_planet name = some pl)
    (horbit : pl.orbit = r)
    (hr : 0 < r)
    (hGM : 0 ≤ U.G * pl.mass)
    (hdist : Real.sqrt (dot (s.1 - pl.position) (s.1 - pl.position)) = r)
    (hrad : dot (s.1 - pl.position) s.2 = 0)
    (hspeed : Real.sqrt (dot s.2 s.2) = Real.sqrt (U.G * pl.mass / r)) :
    U.constraint_state_to_orbit s name = some (0, 0, 0) := by
  have hpp : dot (s.1 - pl.position) (s.1 - pl.position) = r ^ 2 := by
    rw [← sq_sqrt_dot (s.1 - pl.position), hdist]
  have hvv : dot s.2 s.2 = U.G * pl.mass / r := by
    have h1 : Real.sqrt (dot s.2 s.2) ^ 2 = Real.sqrt (U.G * pl.mass / r) ^ 2 := by
      rw [hspeed]
    rwa [sq_sqrt_dot, Real.sq_sqrt (by positivity)] at h1
  unfold Universe.constraint_state_to_orbit
  rw [hget, acceleration_from_planet_resolved U s name pl hget]
  show some _ = _
  refine congrArg some (Prod.ext ?_ (Prod.ext ?_ ?_))
  · show dot (s.1 - pl.position) (s.1 - pl.position) - pl.orbit ^ 2 = 0
    rw [hpp, horbit]
    ring
  · exact hrad
  · show dot (s.1 - pl.position) (planet_accel U s.1 pl) + dot s.2 s.2 = 0
    unfold planet_accel grav_divisor
    rw [dot_smul_right, hdist, hpp, hvv]
    field_simp
    ring

/-- Witness for C4: a state on the unit circular orbit of the one-body
universe, with unit tangential speed. -/
theorem C4_witness :
    oneBodyUniverse.constraint_state_to_orbit (((1, 0), (0, 1)) : State4) "Probe"
      = some (0, 0, 0) := by
  apply C4_circular_orbit_zero_residual oneBodyUniverse "Probe" probe ((1, 0), (0, 1)) 1
    rfl rfl one_pos
  · show (0 : ℝ) ≤ 1 * 1
    norm_num
  · show Real.sqrt (dot (((1, 0) : Vec2) - (0, 0)) (((1, 0) : Vec2) - (0, 0))) = 1
    norm_num [dot, Prod.mk_sub_mk, Real.sqrt_one]
  · show dot (((1, 0) : Vec2) - (0, 0)) ((0, 1) : Vec2) = 0
    norm_num [dot, Prod.mk_sub_mk]
  · show Real.sqrt (dot ((0, 1) : Vec2) ((0, 1) : Vec2)) = Real.sqrt (1 * 1 / 1)
    norm_num [dot]

/-- **C5.** The asteroid keep-out loop adds exactly
`(time_steps + 1) * (number of asteroids)` inequality constraints — one per
state index `t ≤ time_steps` and per asteroid — and satisfying them all is
equivalent to keeping the vehicle's distance from each asteroid's center at
or above that asteroid's exclusion radius at every state. -/
theorem C5_asteroid_keepout_constraints (U : Universe) (asts : List Planet) (ts : ℕ)
    (hfind : ∀ a ∈ asts, U.get_planet a.name = some a) :
    (asteroid_constraints U asts ts).length = (ts + 1) * asts.length ∧
      ∀ asg, ((∀ c ∈ asteroid_constraints U asts ts, c asg) ↔
        ∀ t ≤ ts, ∀ a ∈ asts,
          a.orbit ≤ Real.sqrt (dot ((asg.1 t).1 - a.position) ((asg.1 t).1 - a.position))) :=
  ⟨asteroid_constraints_length U asts ts,
    fun asg => asteroid_constraints_sat_iff U asts ts hfind asg⟩

/-- Witness for C5: one asteroid, 100 time steps, 101 constraints. -/
theorem C5_witness :
    (∀ a ∈ [probe], oneBodyUniverse.get_planet a.name = some a) ∧
      (asteroid_constraints oneBodyUniverse [probe] 100).length = 101 := by
  have hfind : ∀ a ∈ [probe], oneBodyUniverse.get_planet a.name = some a := by
    intro a ha
    rw [List.mem_singleton] at ha
    subst ha
    rfl
  refine ⟨hfind, ?_⟩
  simpa using (C5_asteroid_keepout_constraints oneBodyUniverse [probe] 100 hfind).1

/-- **C6 counterexample.** A malformed rocket specification (negative mass,
zero thrust limit, negative velocity limit) is not rejected: the constructor
succeeds and silently stores the unit-scaled values. -/
theorem C6_counterexample :
    Rocket.make (-1) 0 (-5)
      = { mass := -(1 / 1000)
          thrust_limit := 0
          velocity_limit := -((5 * 31104000) / 100000000000) } := by
  unfold Rocket.make unit_mass unit_length unit_time
  norm_num [Rocket.mk.injEq]

/-- **C6 (amended).** No eager validation happens at construction or
assembly time: rocket construction is total and sign-preserving, so
non-positive masses and limits flow into the assembled problem unreported
instead of raising a descriptive failure. -/
theorem C6_no_validation (m tl vl : ℝ) (hm : m < 0) (htl : tl < 0) (hvl : vl < 0) :
    (Rocket.make m tl vl).mass < 0 ∧ (Rocket.make m tl vl).thrust_limit < 0 ∧
      (Rocket.make m tl vl).velocity_limit < 0 := by
  refine ⟨?_, ?_, ?_⟩
  · show unit_mass m 1 < 0
    unfold unit_mass
    exact div_neg_of_neg_of_pos hm (by positivity)
  · show unit_time (unit_length (unit_mass tl 1) 1) (-2) < 0
    unfold unit_mass unit_length unit_time
    exact div_neg_of_neg_of_pos
      (div_neg_of_neg_of_pos (div_neg_of_neg_of_pos htl (by positivity)) (by positivity))
      (by positivity)
  · show unit_time (unit_length vl 1) (-1) < 0
    unfold unit_length unit_time
    exact div_neg_of_neg_of_pos (div_neg_of_neg_of_pos hvl (by positivity)) (by positivity)

/-- Witness for C6 (amended): concrete malformed inputs. -/
theorem C6_witness :
    (Rocket.make (-1) (-2) (-3)).mass < 0 ∧ (Rocket.make (-1) (-2) (-3)).thrust_limit < 0 ∧
      (Rocket.make (-1) (-2) (-3)).velocity_limit < 0 :=
  C6_no_validation (-1) (-2) (-3) (by norm_num) (by norm_num) (by norm_num)

/-- **C7.** A failed solve surfaces as an explicit error distinct from
success, with no state, thrust or fuel value extracted; values are read
back exactly when the success flag is true. -/
theorem C7_failure_surfaced (result : SolverResult) (h : ℝ) (ts : ℕ) :
    (result.is_success = false →
        retrieve_solution result h ts
          = Except.error ("result.is_success() returned False")) ∧
      ∀ s, retrieve_solution result h ts = Except.ok s → result.is_success = true := by
  unfold retrieve_solution
  cases hs : result.is_success with
  | false => simp
  | true => simp

/-- Witness for C7: the failed solver outcome maps to the error branch. -/
theorem C7_witness :
    retrieve_solution failedResult 1 1
      = Except.error ("result.is_success() returned False") :=
  (C7_failure_surfaced failedResult 1 1).1 rfl

/-- **C8.** The assembled objective and the `fuel_consumption` report both
compute `time_interval * Σ_t thrust_t · thrust_t`, and the fuel cost of a
successfully retrieved solution equals the objective evaluated at that
solution's thrust sequence. -/
theorem C8_objective_matches_fuel (h : ℝ) (ts : ℕ) (u : ℕ → Vec2) :
    fuel_cost_objective h ts u
        = h * ((List.range ts).map (fun t => dot (u t) (u t))).sum ∧
      fuel_consumption ((List.range ts).map u) h = fuel_cost_objective h ts u ∧
      ∀ (result : SolverResult) (s : Solution),
        retrieve_solution result h ts = Except.ok s →
          s.fuel = fuel_cost_objective h ts s.thrust_opt := by
  refine ⟨fuel_cost_objective_eq_sum h ts u, ?_, ?_⟩
  · rw [fuel_consumption_eq_sum, fuel_cost_objective_eq_sum]
  · intro result s hok
    unfold retrieve_solution at hok
    cases hs : result.is_success with
    | false =>
      rw [hs] at hok
      simp at hok
    | true =>
      rw [hs] at hok
      simp only [if_true, reduceIte] at hok
      rw [← Except.ok.inj hok]
      show fuel_consumption ((List.range ts).map result.thrust_values) h
        = fuel_cost_objective h ts result.thrust_values
      rw [fuel_consumption_eq_sum, fuel_cost_objective_eq_sum]

/-- Witness for C8: concrete successful retrieval with unit thrust. -/
theorem C8_witness :
    retrieve_solution okResult 2 1 = Except.ok okSolution ∧
      okSolution.fuel = fuel_cost_objective 2 1 okSolution.thrust_opt := by
  have hok : retrieve_solution okResult 2 1 = Except.ok okSolution := rfl
  exact ⟨hok,
    (C8_objective_matches_fuel 2 1 okResult.thrust_values).2.2 okResult okSolution hok⟩

/-- **C9.** The distance divisor `d ** 3` of the gravitational-acceleration
computation is nonzero exactly when the query position differs from the
body position; across a whole universe the computation is well-defined iff
the query position coincides with no registered body's position. -/
theorem C9_divisor_nonzero_iff (U : Universe) (q : Vec2) :
    (∀ pl : Planet, grav_divisor (q - pl.position) ≠ 0 ↔ q ≠ pl.position) ∧
      ((∀ pl ∈ U.planets, grav_divisor (q - pl.position) ≠ 0) ↔
        ∀ pl ∈ U.planets, q ≠ pl.position) := by
  have base : ∀ pl : Planet, grav_divisor (q - pl.position) ≠ 0 ↔ q ≠ pl.position := by
    intro pl
    exact not_congr (by rw [grav_divisor_eq_zero_iff, sub_eq_zero])
  exact ⟨base, forall₂_congr (fun pl _ => base pl)⟩

/-- **C10.** An unknown planet name makes `get_planet` return `none` (the
Python prints a not-found message instead of raising), and every dependent
operation — relative position, acceleration, orbit residual — propagates
the miss and yields no value (the Python dereferences `None` and fails). -/
theorem C10_unknown_planet (U : Universe) (s : State4) (name : String)
    (h : ∀ pl ∈ U.planets, pl.name ≠ name) :
    U.get_planet name = none ∧ U.position_wrt_planet s name = none ∧
      U.acceleration_from_planet s name = none ∧
      U.constraint_state_to_orbit s name = none := by
  have hget : U.get_planet name = none := by
    unfold Universe.get_planet
    rw [List.find?_eq_none]
    intro pl hpl
    simpa using h pl hpl
  have hpos : U.position_wrt_planet s name = none := by
    unfold Universe.position_wrt_planet
    rw [hget]
    rfl
  have hacc : U.acceleration_from_planet s name = none := by
    unfold Universe.acceleration_from_planet
    rw [hpos, hget]
  refine ⟨hget, hpos, hacc, ?_⟩
  unfold Universe.constraint_state_to_orbit
  rw [hget, hacc]

/-- Witness for C10: the name Jupiter is not in the one-body universe. -/
theorem C10_witness :
    oneBodyUniverse.get_planet "Jupiter" = none ∧
      oneBodyUniverse.position_wrt_planet (((0, 0), (0, 0)) : State4) "Jupiter" = none ∧
      oneBodyUniverse.acceleration_from_planet (((0, 0), (0, 0)) : State4) "Jupiter" = none ∧
      oneBodyUniverse.constraint_state_to_orbit (((0, 0), (0, 0)) : State4) "Jupiter"
        = none := by
  apply C10_unknown_planet
  intro pl hpl
  have hpe : pl = probe := by simpa [oneBodyUniverse] using hpl
  rw [hpe]
  show probe.name ≠ "Jupiter"
  simp [probe]

end OrbitalTransfer
